import Mathlib

/-!
# Deployment script and build configuration of the NFT event ticketing system

Shallow embedding of `backend/scripts/deploy.js` and `backend/hardhat.config.js`.

The deployment script is a straight-line `async` procedure over four calls into
the `ethers` client library.  Each call returns a promise; a promise is modelled
by its `Outcome`: it resolves with a value, rejects with an error, or stays
pending for ever (the event loop is kept alive by the provider that polls the
network).  The script is run against an environment `Ethers` that fixes the
outcome of each call, and yields the trace of observable events: invocations of
library calls and how they settle, `console.log` and `console.error` calls, and
`process.exit`.
-/

namespace Deploy

/-- A thrown JavaScript value: an error object with its `name` and `message`. -/
structure JsError where
  name : String
  message : String
deriving DecidableEq, Repr

/-- How an awaited promise ends: `resolved v`, `rejected e`, or never settled. -/
inductive Outcome (α : Type) where
  | resolved (v : α)
  | rejected (e : JsError)
  | pending
deriving Repr

/-- A signer as used by the script: only its `address` field is read. -/
structure Signer where
  address : String
deriving DecidableEq, Repr

/-- The contract handle returned by `deploy()`: its `target` field and the
outcome of its `waitForDeployment()` call. -/
structure Contract where
  target : String
  waitForDeployment : Outcome Unit

/-- The factory returned by `getContractFactory`: the outcome of its `deploy()`
call. -/
structure ContractFactory where
  deploy : Outcome Contract

/-- The `ethers` object imported from hardhat, as far as the script uses it. -/
structure Ethers where
  getSigners : Outcome (List Signer)
  getContractFactory : String → Outcome ContractFactory

/-- The four calls into the client library made by `main`. -/
inductive Step where
  | getSigners
  | getContractFactory
  | deploy
  | waitForDeployment
deriving DecidableEq, Repr

/-- Position of a step in the source text of `main`. -/
def Step.index : Step → Nat
  | .getSigners => 0
  | .getContractFactory => 1
  | .deploy => 2
  | .waitForDeployment => 3

/-- Observable events of a run, in the order in which they happen. -/
inductive Event where
  /-- A library call is made. -/
  | invoke (s : Step)
  /-- The awaited promise of a library call resolves. -/
  | resolved (s : Step)
  /-- The awaited promise of a library call rejects with `e`. -/
  | rejected (s : Step) (e : JsError)
  /-- One `console.log` call with its formatted text. -/
  | stdout (line : String)
  /-- One `console.error` call with its two arguments. -/
  | stderr (pfx : String) (error : JsError)
  /-- A `process.exit` call with its status. -/
  | exit (code : Nat)
deriving DecidableEq, Repr

/-- An `async` computation: the events it has produced and the outcome of the
promise it returns. -/
structure Async (α : Type) where
  trace : List Event
  result : Outcome α

/-- Sequencing of `async` code: what follows an `await` runs only when the
awaited computation resolves; a rejection or a promise that never settles ends
the sequence there. -/
def Async.bind {α β : Type} (m : Async α) (k : α → Async β) : Async β :=
  match m.result with
  | .resolved v => ⟨m.trace ++ (k v).trace, (k v).result⟩
  | .rejected e => ⟨m.trace, .rejected e⟩
  | .pending => ⟨m.trace, .pending⟩

instance : Monad Async where
  pure v := ⟨[], .resolved v⟩
  bind := Async.bind

/-- Calling library step `s` and awaiting the promise it returns. -/
def await {α : Type} (s : Step) (p : Outcome α) : Async α :=
  match p with
  | .resolved v => ⟨[Event.invoke s, Event.resolved s], .resolved v⟩
  | .rejected e => ⟨[Event.invoke s, Event.rejected s e], .rejected e⟩
  | .pending => ⟨[Event.invoke s], .pending⟩

/-- The call `console.log(line)`. -/
def consoleLog (line : String) : Async Unit :=
  ⟨[Event.stdout line], .resolved ()⟩

/-- The error the runtime throws when a property is read from `undefined`. -/
def undefinedPropertyError (property : String) : JsError :=
  ⟨"TypeError", "Cannot read properties of undefined (reading '" ++ property ++ "')"⟩

/-- The expression `deployer.address`, where `deployer` is the first element of
the destructured array, `undefined` when the array is empty. -/
def readAddress (deployer : Option Signer) : Async String :=
  match deployer with
  | some signer => ⟨[], .resolved signer.address⟩
  | none => ⟨[], .rejected (undefinedPropertyError "address")⟩

/-- The body of `async function main()`. -/
def main (ethers : Ethers) : Async Unit := do
  let signers ← await Step.getSigners ethers.getSigners
  let deployer := signers.head?
  let address ← readAddress deployer
  consoleLog ("Deploying contracts with account: " ++ address)
  let NFTticketing ← await Step.getContractFactory (ethers.getContractFactory "NFTticketing")
  let nftTicketing ← await Step.deploy NFTticketing.deploy
  await Step.waitForDeployment nftTicketing.waitForDeployment
  consoleLog ("✅ NFTticketing deployed to: " ++ nftTicketing.target)

/-- First argument of the `console.error` call in the catch handler. -/
def errorLabel : String := "❌ Error in deploy.js:"

/-- The top level of the script:
`main().then(() => process.exit(0)).catch((error) => ...)`. -/
def script (ethers : Ethers) : List Event :=
  let run := main ethers
  match run.result with
  | .resolved _ => run.trace ++ [Event.exit 0]
  | .rejected error => run.trace ++ [Event.stderr errorLabel error, Event.exit 1]
  | .pending => run.trace

/-! ## Observations on a trace -/

/-- The status the process exited with, if it exited. -/
def exitCode (trace : List Event) : Option Nat :=
  trace.findSome? fun ev => match ev with
    | .exit code => some code
    | _ => none

/-- The `console.log` calls of a run, in order. -/
def stdoutWrites (trace : List Event) : List String :=
  trace.filterMap fun ev => match ev with
    | .stdout line => some line
    | _ => none

/-- The `console.error` calls of a run, in order. -/
def stderrWrites (trace : List Event) : List (String × JsError) :=
  trace.filterMap fun ev => match ev with
    | .stderr pfx error => some (pfx, error)
    | _ => none

/-- The library calls of a run, in order. -/
def calls (trace : List Event) : List Step :=
  trace.filterMap fun ev => match ev with
    | .invoke s => some s
    | _ => none

/-- The deployment transactions submitted by a run: its `deploy()` calls. -/
def submissions (trace : List Event) : List Step :=
  (calls trace).filter fun s => s == Step.deploy

/-- Fixed text that opens the success line. -/
def successLabel : String := "✅ NFTticketing deployed to: "

/-- Whether a line of standard output is the success line. -/
def isSuccessLine (line : String) : Bool :=
  successLabel.data.isPrefixOf line.data

end Deploy

/-! ## Build configuration (`hardhat.config.js`) -/

namespace HardhatConfig

/-- The `optimizer` object of the compiler settings. -/
structure Optimizer where
  enabled : Bool
  runs : Nat
deriving DecidableEq, Repr

/-- The `settings` object of the compiler configuration. -/
structure Settings where
  optimizer : Optimizer
deriving DecidableEq, Repr

/-- The `solidity` object of the configuration. -/
structure Solidity where
  version : String
  settings : Settings
deriving DecidableEq, Repr

/-- The shape of the exported configuration. -/
structure Config where
  solidity : Solidity
deriving DecidableEq, Repr

/-- The object assigned to `module.exports`. -/
def module.exports : Config :=
  { solidity :=
      { version := "0.8.21"
        settings := { optimizer := { enabled := true, runs := 200 } } } }

end HardhatConfig

namespace Deploy

/-! ## The ten paths through the script -/

/-- The first `console.log` line for a deployer address. -/
def deployingLine (address : String) : String :=
  "Deploying contracts with account: " ++ address

/-- The second `console.log` line for a contract target. -/
def deployedLine (target : String) : String :=
  "✅ NFTticketing deployed to: " ++ target

/-- Events up to and including the first `console.log`. -/
def signerEvents (s : Signer) : List Event :=
  [Event.invoke Step.getSigners, Event.resolved Step.getSigners,
   Event.stdout (deployingLine s.address)]

/-- Events up to and including the resolution of `getContractFactory`. -/
def factoryEvents (s : Signer) : List Event :=
  signerEvents s ++
    [Event.invoke Step.getContractFactory, Event.resolved Step.getContractFactory]

/-- Events up to and including the resolution of `deploy`. -/
def deployEvents (s : Signer) : List Event :=
  factoryEvents s ++ [Event.invoke Step.deploy, Event.resolved Step.deploy]

/-- What the catch handler adds to a trace. -/
def handlerEvents (e : JsError) : List Event :=
  [Event.stderr errorLabel e, Event.exit 1]

/-- The paths a run can take: where it stops and with which data. -/
inductive Path where
  | signersPending
  | signersRejected (e : JsError)
  | signersEmpty
  | factoryPending (s : Signer)
  | factoryRejected (s : Signer) (e : JsError)
  | deployPending (s : Signer)
  | deployRejected (s : Signer) (e : JsError)
  | waitPending (s : Signer)
  | waitRejected (s : Signer) (e : JsError)
  | confirmed (s : Signer) (target : String)

/-- The trace of each path. -/
def Path.trace : Path → List Event
  | .signersPending => [Event.invoke Step.getSigners]
  | .signersRejected e =>
      [Event.invoke Step.getSigners, Event.rejected Step.getSigners e] ++ handlerEvents e
  | .signersEmpty =>
      [Event.invoke Step.getSigners, Event.resolved Step.getSigners] ++
        handlerEvents (undefinedPropertyError "address")
  | .factoryPending s => signerEvents s ++ [Event.invoke Step.getContractFactory]
  | .factoryRejected s e =>
      signerEvents s ++
        [Event.invoke Step.getContractFactory, Event.rejected Step.getContractFactory e] ++
        handlerEvents e
  | .deployPending s => factoryEvents s ++ [Event.invoke Step.deploy]
  | .deployRejected s e =>
      factoryEvents s ++ [Event.invoke Step.deploy, Event.rejected Step.deploy e] ++
        handlerEvents e
  | .waitPending s => deployEvents s ++ [Event.invoke Step.waitForDeployment]
  | .waitRejected s e =>
      deployEvents s ++
        [Event.invoke Step.waitForDeployment, Event.rejected Step.waitForDeployment e] ++
        handlerEvents e
  | .confirmed s target =>
      deployEvents s ++
        [Event.invoke Step.waitForDeployment, Event.resolved Step.waitForDeployment,
         Event.stdout (deployedLine target), Event.exit 0]

/-- Whether an event is the write of the success line. -/
def isSuccessWrite : Event → Bool
  | .stdout line => isSuccessLine line
  | _ => false

/-! ## Outcomes of the steps in an environment -/

/-- Every library step returns a value in the environment: `getSigners`,
`getContractFactory("NFTticketing")`, `deploy` on the factory it returns and
`waitForDeployment` on the contract that returns all resolve. -/
def EveryStepSucceeds (env : Ethers) : Prop :=
  ∃ (ss : List Signer) (f : ContractFactory) (c : Contract),
    env.getSigners = .resolved ss ∧
    env.getContractFactory "NFTticketing" = .resolved f ∧
    f.deploy = .resolved c ∧
    c.waitForDeployment = .resolved ()

/-- Some library step raises the error `e` in the environment. -/
def StepRaises (env : Ethers) (e : JsError) : Prop :=
  env.getSigners = .rejected e ∨
  env.getContractFactory "NFTticketing" = .rejected e ∨
  ∃ f : ContractFactory, env.getContractFactory "NFTticketing" = .resolved f ∧
    (f.deploy = .rejected e ∨
      ∃ c : Contract, f.deploy = .resolved c ∧ c.waitForDeployment = .rejected e)

/-- The signer list returned by `getSigners` has a first element. -/
def HasFirstSigner (env : Ethers) : Prop :=
  ∃ (s : Signer) (ss : List Signer), env.getSigners = .resolved (s :: ss)

/-! ## Sample environments -/

/-- A contract whose deployment is confirmed. -/
def confirmedContract : Contract := ⟨"0xC0FFEE", .resolved ()⟩

/-- A contract whose deployment is never confirmed. -/
def unconfirmedContract : Contract := ⟨"0xC0FFEE", .pending⟩

/-- A reachable network with two signers and a compiled artifact. -/
def envOk : Ethers :=
  { getSigners := .resolved [⟨"0xA1"⟩, ⟨"0xB2"⟩]
    getContractFactory := fun _ => .resolved ⟨.resolved confirmedContract⟩ }

/-- A network without configured accounts: the signer list is empty. -/
def envNoSigner : Ethers :=
  { getSigners := .resolved []
    getContractFactory := fun _ => .resolved ⟨.resolved confirmedContract⟩ }

/-- The artifact lookup error of the sample environments. -/
def artifactError : JsError := ⟨"HardhatError", "HH700: Artifact for contract NFTticketing not found."⟩

/-- A project whose contract was not compiled. -/
def envNoArtifact : Ethers :=
  { getSigners := .resolved [⟨"0xA1"⟩]
    getContractFactory := fun _ => .rejected artifactError }

/-- A network that accepts the transaction and never confirms it. -/
def envHang : Ethers :=
  { getSigners := .resolved [⟨"0xA1"⟩]
    getContractFactory := fun _ => .resolved ⟨.resolved unconfirmedContract⟩ }

/-- The revert error of the sample environments. -/
def revertError : JsError := ⟨"Error", "transaction execution reverted"⟩

/-- A network on which the deployment transaction reverts. -/
def envRevert : Ethers :=
  { getSigners := .resolved [⟨"0xA1"⟩]
    getContractFactory := fun _ => .resolved ⟨.resolved ⟨"0xC0FFEE", .rejected revertError⟩⟩ }

theorem script_signers_pending (env : Ethers) (h : env.getSigners = .pending) :
    script env = [Event.invoke Step.getSigners] := by
  simp [script, main, bind, Async.bind, await, h]

theorem script_signers_rejected (env : Ethers) (e : JsError)
    (h : env.getSigners = .rejected e) :
    script env =
      [Event.invoke Step.getSigners, Event.rejected Step.getSigners e] ++ handlerEvents e := by
  simp [script, main, bind, Async.bind, await, h, handlerEvents]

theorem script_signers_empty (env : Ethers) (h : env.getSigners = .resolved []) :
    script env =
      [Event.invoke Step.getSigners, Event.resolved Step.getSigners] ++
        handlerEvents (undefinedPropertyError "address") := by
  simp [script, main, bind, Async.bind, await, h, handlerEvents, readAddress]

theorem script_factory_pending (env : Ethers) (s : Signer) (ss : List Signer)
    (h : env.getSigners = .resolved (s :: ss))
    (hf : env.getContractFactory "NFTticketing" = .pending) :
    script env = signerEvents s ++ [Event.invoke Step.getContractFactory] := by
  simp [script, main, bind, Async.bind, await, h, hf, readAddress, consoleLog,
    signerEvents, deployingLine]

theorem script_factory_rejected (env : Ethers) (s : Signer) (ss : List Signer) (e : JsError)
    (h : env.getSigners = .resolved (s :: ss))
    (hf : env.getContractFactory "NFTticketing" = .rejected e) :
    script env =
      signerEvents s ++
        [Event.invoke Step.getContractFactory, Event.rejected Step.getContractFactory e] ++
        handlerEvents e := by
  simp [script, main, bind, Async.bind, await, h, hf, readAddress, consoleLog,
    signerEvents, deployingLine, handlerEvents]

theorem script_deploy_pending (env : Ethers) (s : Signer) (ss : List Signer)
    (f : ContractFactory)
    (h : env.getSigners = .resolved (s :: ss))
    (hf : env.getContractFactory "NFTticketing" = .resolved f)
    (hd : f.deploy = .pending) :
    script env = factoryEvents s ++ [Event.invoke Step.deploy] := by
  simp [script, main, bind, Async.bind, await, h, hf, hd, readAddress, consoleLog,
    signerEvents, factoryEvents, deployingLine]

theorem script_deploy_rejected (env : Ethers) (s : Signer) (ss : List Signer)
    (f : ContractFactory) (e : JsError)
    (h : env.getSigners = .resolved (s :: ss))
    (hf : env.getContractFactory "NFTticketing" = .resolved f)
    (hd : f.deploy = .rejected e) :
    script env =
      factoryEvents s ++ [Event.invoke Step.deploy, Event.rejected Step.deploy e] ++
        handlerEvents e := by
  simp [script, main, bind, Async.bind, await, h, hf, hd, readAddress, consoleLog,
    signerEvents, factoryEvents, deployingLine, handlerEvents]

theorem script_wait_pending (env : Ethers) (s : Signer) (ss : List Signer)
    (f : ContractFactory) (c : Contract)
    (h : env.getSigners = .resolved (s :: ss))
    (hf : env.getContractFactory "NFTticketing" = .resolved f)
    (hd : f.deploy = .resolved c)
    (hw : c.waitForDeployment = .pending) :
    script env = deployEvents s ++ [Event.invoke Step.waitForDeployment] := by
  simp [script, main, bind, Async.bind, await, h, hf, hd, hw, readAddress, consoleLog,
    signerEvents, factoryEvents, deployEvents, deployingLine]

theorem script_wait_rejected (env : Ethers) (s : Signer) (ss : List Signer)
    (f : ContractFactory) (c : Contract) (e : JsError)
    (h : env.getSigners = .resolved (s :: ss))
    (hf : env.getContractFactory "NFTticketing" = .resolved f)
    (hd : f.deploy = .resolved c)
    (hw : c.waitForDeployment = .rejected e) :
    script env =
      deployEvents s ++
        [Event.invoke Step.waitForDeployment, Event.rejected Step.waitForDeployment e] ++
        handlerEvents e := by
  simp [script, main, bind, Async.bind, await, h, hf, hd, hw, readAddress, consoleLog,
    signerEvents, factoryEvents, deployEvents, deployingLine, handlerEvents]

theorem script_wait_resolved (env : Ethers) (s : Signer) (ss : List Signer)
    (f : ContractFactory) (c : Contract)
    (h : env.getSigners = .resolved (s :: ss))
    (hf : env.getContractFactory "NFTticketing" = .resolved f)
    (hd : f.deploy = .resolved c)
    (hw : c.waitForDeployment = .resolved ()) :
    script env =
      deployEvents s ++
        [Event.invoke Step.waitForDeployment, Event.resolved Step.waitForDeployment,
         Event.stdout (deployedLine c.target), Event.exit 0] := by
  simp [script, main, bind, Async.bind, await, h, hf, hd, hw, readAddress, consoleLog,
    signerEvents, factoryEvents, deployEvents, deployingLine, deployedLine]

/-- Every run follows one of the ten paths. -/
theorem script_cases (env : Ethers) : ∃ p : Path, script env = p.trace := by
  rcases h : env.getSigners with ss | e | _
  · cases ss with
    | nil => exact ⟨.signersEmpty, script_signers_empty env h⟩
    | cons s ss =>
      rcases hf : env.getContractFactory "NFTticketing" with f | e | _
      · rcases hd : f.deploy with c | e | _
        · rcases hw : c.waitForDeployment with u | e | _
          · exact ⟨.confirmed s c.target, script_wait_resolved env s ss f c h hf hd hw⟩
          · exact ⟨.waitRejected s e, script_wait_rejected env s ss f c e h hf hd hw⟩
          · exact ⟨.waitPending s, script_wait_pending env s ss f c h hf hd hw⟩
        · exact ⟨.deployRejected s e, script_deploy_rejected env s ss f e h hf hd⟩
        · exact ⟨.deployPending s, script_deploy_pending env s ss f h hf hd⟩
      · exact ⟨.factoryRejected s e, script_factory_rejected env s ss e h hf⟩
      · exact ⟨.factoryPending s, script_factory_pending env s ss h hf⟩
  · exact ⟨.signersRejected e, script_signers_rejected env e h⟩
  · exact ⟨.signersPending, script_signers_pending env h⟩

@[simp] theorem isSuccessLine_deployingLine (a : String) :
    isSuccessLine (deployingLine a) = false := by
  cases a
  rfl

@[simp] theorem isSuccessLine_deployedLine (t : String) :
    isSuccessLine (deployedLine t) = true := by
  cases t
  simp [isSuccessLine, successLabel, deployedLine]

/-! ## Exit status and standard error -/

/-- C1 fails as stated: with an empty signer list every library step returns a
value and the run terminates, yet the exit status is 1, not 0. -/
theorem empty_signer_list_exits_one :
    EveryStepSucceeds envNoSigner ∧
    exitCode (script envNoSigner) = some 1 ∧
    ¬ (exitCode (script envNoSigner) = some 0 ↔ EveryStepSucceeds envNoSigner) := by
  have hall : EveryStepSucceeds envNoSigner :=
    ⟨[], ⟨.resolved confirmedContract⟩, confirmedContract, rfl, rfl, rfl, rfl⟩
  have hexit : exitCode (script envNoSigner) = some 1 := by decide
  refine ⟨hall, hexit, ?_⟩
  intro hiff
  have h0 := hiff.mpr hall
  rw [hexit] at h0
  exact absurd h0 (by decide)

/-- C1, amended: in every environment in which the run terminates, the exit
status is 0 exactly when every library step returns a value and the signer list
is non-empty; it is 1 when some step raises an error; and it is 0 or 1. -/
theorem exit_code_of_environment (env : Ethers)
    (hterm : exitCode (script env) ≠ none) :
    (exitCode (script env) = some 0 ↔ EveryStepSucceeds env ∧ HasFirstSigner env) ∧
    (∀ e, StepRaises env e → exitCode (script env) = some 1) ∧
    (exitCode (script env) = some 0 ∨ exitCode (script env) = some 1) := by
  rcases hs : env.getSigners with ss | e1 | _
  · cases ss with
    | nil =>
      rw [script_signers_empty env hs]
      simp [exitCode, handlerEvents, EveryStepSucceeds, HasFirstSigner, hs]
    | cons s ss =>
      rcases hf : env.getContractFactory "NFTticketing" with f | e2 | _
      · rcases hd : f.deploy with c | e3 | _
        · rcases hw : c.waitForDeployment with u | e4 | _
          · rw [script_wait_resolved env s ss f c hs hf hd hw]
            simp [exitCode, deployEvents, factoryEvents, signerEvents, EveryStepSucceeds,
              HasFirstSigner, StepRaises, hs, hf, hd, hw]
          · rw [script_wait_rejected env s ss f c e4 hs hf hd hw]
            simp [exitCode, deployEvents, factoryEvents, signerEvents, handlerEvents,
              EveryStepSucceeds, HasFirstSigner, StepRaises, hs, hf, hd, hw]
          · rw [script_wait_pending env s ss f c hs hf hd hw] at hterm
            simp [exitCode, deployEvents, factoryEvents, signerEvents] at hterm
        · rw [script_deploy_rejected env s ss f e3 hs hf hd]
          simp [exitCode, factoryEvents, signerEvents, handlerEvents,
            EveryStepSucceeds, HasFirstSigner, StepRaises, hs, hf, hd]
        · rw [script_deploy_pending env s ss f hs hf hd] at hterm
          simp [exitCode, factoryEvents, signerEvents] at hterm
      · rw [script_factory_rejected env s ss e2 hs hf]
        simp [exitCode, signerEvents, handlerEvents, EveryStepSucceeds, HasFirstSigner,
          StepRaises, hs, hf]
      · rw [script_factory_pending env s ss hs hf] at hterm
        simp [exitCode, signerEvents] at hterm
  · rw [script_signers_rejected env e1 hs]
    simp [exitCode, handlerEvents, EveryStepSucceeds, HasFirstSigner, hs]
  · rw [script_signers_pending env hs] at hterm
    simp [exitCode] at hterm

theorem exit_code_of_environment_witness :
    (exitCode (script envOk) ≠ none ∧ exitCode (script envOk) = some 0) ∧
    (exitCode (script envRevert) ≠ none ∧ exitCode (script envRevert) = some 1) :=
  ⟨⟨by decide,
    (exit_code_of_environment envOk (by decide)).1.mpr
      ⟨⟨[⟨"0xA1"⟩, ⟨"0xB2"⟩], ⟨.resolved confirmedContract⟩, confirmedContract,
          rfl, rfl, rfl, rfl⟩,
        ⟨⟨"0xA1"⟩, [⟨"0xB2"⟩], rfl⟩⟩⟩,
   ⟨by decide,
    (exit_code_of_environment envRevert (by decide)).2.1 revertError
      (Or.inr (Or.inr ⟨⟨.resolved ⟨"0xC0FFEE", .rejected revertError⟩⟩, rfl,
        Or.inr ⟨⟨"0xC0FFEE", .rejected revertError⟩, rfl, rfl⟩⟩))⟩⟩

/-- C2: when a step rejects with `e`, standard error receives exactly one write,
the fixed label followed by `e` itself; a run that exits with 0 writes nothing
to standard error. -/
theorem stderr_is_label_and_error (env : Ethers) :
    (∀ s e, Event.rejected s e ∈ script env →
      stderrWrites (script env) = [("❌ Error in deploy.js:", e)]) ∧
    (exitCode (script env) = some 0 → stderrWrites (script env) = []) := by
  obtain ⟨p, hp⟩ := script_cases env
  rw [hp]
  cases p <;>
    simp [Path.trace, exitCode, stderrWrites, handlerEvents, signerEvents, factoryEvents,
      deployEvents, errorLabel]

theorem stderr_is_label_and_error_witness :
    stderrWrites (script envRevert) = [("❌ Error in deploy.js:", revertError)] ∧
    stderrWrites (script envOk) = [] :=
  ⟨(stderr_is_label_and_error envRevert).1 Step.waitForDeployment revertError (by decide),
   (stderr_is_label_and_error envOk).2 (by decide)⟩

/-! ## Standard output -/

/-- C3: a run that exits with 0 on a non-empty signer list writes exactly two
lines to standard output: the deploying line with the address of the first
signer, then the success line with the target of the contract returned by
`deploy`. -/
theorem stdout_of_successful_run (env : Ethers) (s : Signer) (ss : List Signer)
    (f : ContractFactory) (c : Contract)
    (hs : env.getSigners = .resolved (s :: ss))
    (hf : env.getContractFactory "NFTticketing" = .resolved f)
    (hd : f.deploy = .resolved c)
    (hexit : exitCode (script env) = some 0) :
    stdoutWrites (script env) =
      ["Deploying contracts with account: " ++ s.address,
       "✅ NFTticketing deployed to: " ++ c.target] := by
  rcases hw : c.waitForDeployment with u | e | _
  · rw [script_wait_resolved env s ss f c hs hf hd hw]
    simp [stdoutWrites, deployEvents, factoryEvents, signerEvents, deployingLine, deployedLine]
  · rw [script_wait_rejected env s ss f c e hs hf hd hw] at hexit
    simp [exitCode, deployEvents, factoryEvents, signerEvents, handlerEvents] at hexit
  · rw [script_wait_pending env s ss f c hs hf hd hw] at hexit
    simp [exitCode, deployEvents, factoryEvents, signerEvents] at hexit

theorem stdout_of_successful_run_witness :
    stdoutWrites (script envOk) =
      ["Deploying contracts with account: 0xA1", "✅ NFTticketing deployed to: 0xC0FFEE"] :=
  stdout_of_successful_run envOk ⟨"0xA1"⟩ [⟨"0xB2"⟩] ⟨.resolved confirmedContract⟩
    confirmedContract rfl rfl rfl (by decide)

/-- C4: when no signer is available (`getSigners` rejects, or resolves with an
empty list), the run exits with 1, standard error holds one write carrying the
originating error (the rejection, or the TypeError of reading `address` from
`undefined`), and standard output has no success line. -/
theorem no_signer_fails (env : Ethers)
    (h : (∃ e, env.getSigners = .rejected e) ∨ env.getSigners = .resolved []) :
    exitCode (script env) = some 1 ∧
    (∃ e, stderrWrites (script env) = [(errorLabel, e)] ∧
      (env.getSigners = .rejected e ∨
        (env.getSigners = .resolved [] ∧ e = undefinedPropertyError "address"))) ∧
    (∀ line ∈ stdoutWrites (script env), isSuccessLine line = false) := by
  rcases h with ⟨e, h⟩ | h
  · rw [script_signers_rejected env e h]
    refine ⟨by simp [exitCode, handlerEvents], ⟨e, ?_, Or.inl h⟩, ?_⟩ <;>
      simp [stderrWrites, stdoutWrites, handlerEvents]
  · rw [script_signers_empty env h]
    refine ⟨by simp [exitCode, handlerEvents], ⟨_, ?_, Or.inr ⟨h, rfl⟩⟩, ?_⟩ <;>
      simp [stderrWrites, stdoutWrites, handlerEvents]

theorem no_signer_fails_witness :
    exitCode (script envNoSigner) = some 1 ∧
    (∃ e, stderrWrites (script envNoSigner) = [(errorLabel, e)] ∧
      (envNoSigner.getSigners = .rejected e ∨
        (envNoSigner.getSigners = .resolved [] ∧ e = undefinedPropertyError "address"))) ∧
    (∀ line ∈ stdoutWrites (script envNoSigner), isSuccessLine line = false) :=
  no_signer_fails envNoSigner (Or.inr rfl)

/-- C5: in a run that reaches `getContractFactory("NFTticketing")` and has it
reject, `deploy` is never called, no deployment transaction is submitted, and
the run exits with 1. -/
theorem missing_artifact_submits_nothing (env : Ethers) (e : JsError)
    (hreach : Event.invoke Step.getContractFactory ∈ script env)
    (hrej : env.getContractFactory "NFTticketing" = .rejected e) :
    Step.deploy ∉ calls (script env) ∧
    submissions (script env) = [] ∧
    exitCode (script env) = some 1 := by
  rcases hs : env.getSigners with ss | e1 | _
  · cases ss with
    | nil =>
      rw [script_signers_empty env hs] at hreach
      simp [handlerEvents] at hreach
    | cons s ss =>
      rw [script_factory_rejected env s ss e hs hrej]
      simp [calls, submissions, exitCode, signerEvents, handlerEvents]
  · rw [script_signers_rejected env e1 hs] at hreach
    simp [handlerEvents] at hreach
  · rw [script_signers_pending env hs] at hreach
    simp at hreach

theorem missing_artifact_submits_nothing_witness :
    Step.deploy ∉ calls (script envNoArtifact) ∧
    submissions (script envNoArtifact) = [] ∧
    exitCode (script envNoArtifact) = some 1 :=
  missing_artifact_submits_nothing envNoArtifact artifactError (by decide) rfl

/-- C6 fails as stated: the successful sample run makes two `console.log`
calls, not one. -/
theorem successful_run_writes_stdout_twice :
    exitCode (script envOk) = some 0 ∧ (stdoutWrites (script envOk)).length = 2 ∧
    (stdoutWrites (script envOk)).length ≠ 1 := by
  decide

/-- C6, amended: a run that exits with 0 makes exactly two writes to standard
output, and a run that exits with 1 makes exactly one write to standard
error. -/
theorem diagnostic_write_counts (env : Ethers) :
    (exitCode (script env) = some 0 → (stdoutWrites (script env)).length = 2) ∧
    (exitCode (script env) = some 1 → (stderrWrites (script env)).length = 1) := by
  obtain ⟨p, hp⟩ := script_cases env
  rw [hp]
  cases p <;>
    simp [Path.trace, exitCode, stdoutWrites, stderrWrites, handlerEvents, signerEvents,
      factoryEvents, deployEvents]

theorem diagnostic_write_counts_witness :
    (stdoutWrites (script envOk)).length = 2 ∧ (stderrWrites (script envRevert)).length = 1 :=
  ⟨(diagnostic_write_counts envOk).1 (by decide),
   (diagnostic_write_counts envRevert).2 (by decide)⟩

/-! ## Ordering of confirmation and the success line -/

/-- Events that come before the first event failing `q` all lie in any segment
that ends right before an event failing `q`. -/
theorem mem_of_mem_takeWhile_split {α : Type} (q : α → Bool) (x : α) (post : List α)
    (hx : q x = false) :
    ∀ (pre : List α) (y : α), y ∈ (pre ++ x :: post).takeWhile q → y ∈ pre := by
  intro pre
  induction pre with
  | nil =>
    intro y hy
    simp [List.takeWhile, hx] at hy
  | cons a pre ih =>
    intro y hy
    rw [List.cons_append, List.takeWhile_cons] at hy
    by_cases ha : q a = true
    · rw [if_pos ha] at hy
      rcases List.mem_cons.mp hy with rfl | hy
      · exact List.mem_cons_self _ _
      · exact List.mem_cons_of_mem _ (ih y hy)
    · rw [if_neg ha] at hy
      simp at hy

/-- C7: whenever the success line is written, `waitForDeployment` was called and
had resolved before that write; and in a run in which some step rejects, no
success line is written. -/
theorem success_line_follows_confirmation (env : Ethers) :
    (∀ pre post line, script env = pre ++ Event.stdout line :: post →
      isSuccessLine line = true →
      Event.invoke Step.waitForDeployment ∈ pre ∧
        Event.resolved Step.waitForDeployment ∈ pre) ∧
    ((∃ s e, Event.rejected s e ∈ script env) →
      ∀ line ∈ stdoutWrites (script env), isSuccessLine line = false) := by
  obtain ⟨p, hp⟩ := script_cases env
  rw [hp]
  constructor
  · intro pre post line hsplit hline
    have hmem : Event.stdout line ∈ p.trace := by
      rw [hsplit]
      simp
    have hq : (fun ev => !isSuccessWrite ev) (Event.stdout line) = false := by
      simp [isSuccessWrite, hline]
    have key := mem_of_mem_takeWhile_split (fun ev => !isSuccessWrite ev)
      (Event.stdout line) post hq pre
    rw [← hsplit] at key
    cases p <;>
      simp [Path.trace, handlerEvents, signerEvents, factoryEvents, deployEvents] at hmem
    all_goals first
      | (subst hmem; simp at hline)
      | skip
    rename_i s target
    constructor <;>
      · apply key
        simp [Path.trace, deployEvents, factoryEvents, signerEvents, isSuccessWrite,
          List.takeWhile]
  · cases p <;>
      simp [Path.trace, stdoutWrites, handlerEvents, signerEvents, factoryEvents, deployEvents]

theorem success_line_follows_confirmation_witness :
    (Event.invoke Step.waitForDeployment ∈ (script envOk).take 9 ∧
      Event.resolved Step.waitForDeployment ∈ (script envOk).take 9) ∧
    (∀ line ∈ stdoutWrites (script envRevert), isSuccessLine line = false) :=
  ⟨(success_line_follows_confirmation envOk).1 ((script envOk).take 9) [Event.exit 0]
      "✅ NFTticketing deployed to: 0xC0FFEE" (by decide) (by decide),
   (success_line_follows_confirmation envRevert).2
      ⟨Step.waitForDeployment, revertError, by decide⟩⟩

/-- C8: when the deployment transaction is accepted and its confirmation never
settles, the run stops at the `waitForDeployment` call: no success line, nothing
on standard error, and no exit status. -/
theorem unconfirmed_deployment_hangs (env : Ethers) (s : Signer) (ss : List Signer)
    (f : ContractFactory) (c : Contract)
    (hs : env.getSigners = .resolved (s :: ss))
    (hf : env.getContractFactory "NFTticketing" = .resolved f)
    (hd : f.deploy = .resolved c)
    (hw : c.waitForDeployment = .pending) :
    (script env).getLast? = some (Event.invoke Step.waitForDeployment) ∧
    (∀ line ∈ stdoutWrites (script env), isSuccessLine line = false) ∧
    stderrWrites (script env) = [] ∧
    exitCode (script env) = none := by
  rw [script_wait_pending env s ss f c hs hf hd hw]
  simp [stdoutWrites, stderrWrites, exitCode, deployEvents, factoryEvents, signerEvents]

theorem unconfirmed_deployment_hangs_witness :
    (script envHang).getLast? = some (Event.invoke Step.waitForDeployment) ∧
    (∀ line ∈ stdoutWrites (script envHang), isSuccessLine line = false) ∧
    stderrWrites (script envHang) = [] ∧
    exitCode (script envHang) = none :=
  unconfirmed_deployment_hangs envHang ⟨"0xA1"⟩ [] ⟨.resolved unconfirmedContract⟩
    unconfirmedContract rfl rfl rfl rfl

/-! ## No retries -/

/-- C10: the library calls of a run form an initial segment of `getSigners`,
`getContractFactory`, `deploy`, `waitForDeployment` (each at most once, in that
order); a step is called only after every earlier step resolved; a run submits
at most one deployment transaction, and exactly one when it exits with 0. -/
theorem steps_run_once_in_order (env : Ethers) :
    calls (script env) <+:
      [Step.getSigners, Step.getContractFactory, Step.deploy, Step.waitForDeployment] ∧
    (∀ s t : Step, Event.invoke s ∈ script env → t.index < s.index →
      Event.resolved t ∈ script env) ∧
    (submissions (script env)).length ≤ 1 ∧
    (exitCode (script env) = some 0 → (submissions (script env)).length = 1) := by
  obtain ⟨p, hp⟩ := script_cases env
  rw [hp]
  refine ⟨?_, ?_, ?_, ?_⟩
  · cases p <;>
      simp [Path.trace, calls, handlerEvents, signerEvents, factoryEvents, deployEvents,
        List.prefix_cons_inj, List.prefix_iff_eq_append]
  · intro s t
    cases p <;> cases s <;> cases t <;>
      simp [Path.trace, Step.index, handlerEvents, signerEvents, factoryEvents, deployEvents]
  · cases p <;>
      simp [Path.trace, calls, submissions, handlerEvents, signerEvents, factoryEvents,
        deployEvents]
  · cases p <;>
      simp [Path.trace, calls, submissions, exitCode, handlerEvents, signerEvents,
        factoryEvents, deployEvents]

theorem steps_run_once_in_order_witness :
    Event.resolved Step.getContractFactory ∈ script envOk ∧
    (submissions (script envOk)).length = 1 :=
  ⟨(steps_run_once_in_order envOk).2.1 Step.deploy Step.getContractFactory
      (by decide) (by decide),
   (steps_run_once_in_order envOk).2.2.2 (by decide)⟩

end Deploy

/-! ## Build configuration -/

namespace HardhatConfig

/-- C9: the exported configuration has compiler version "0.8.21", the optimizer
enabled, and 200 optimizer runs, a positive number read back unchanged. -/
theorem exported_config_values :
    module.exports.solidity.version = "0.8.21" ∧
    module.exports.solidity.settings.optimizer.enabled = true ∧
    module.exports.solidity.settings.optimizer.runs = 200 ∧
    0 < module.exports.solidity.settings.optimizer.runs := by
  decide

end HardhatConfig
